import Mathlib

/-!
Shallow embedding of the Safar-Sathi real-time tracking hub
(`sockets/locationSocket.js`) over list-based models of the Catalog
Store (Postgres) and Session Store (Redis).  Numeric payload values are
modelled over an arbitrary linear ordered field `α` (instantiated at `ℚ`
for concrete evaluation and at `ℝ` for the haversine distance); ids are
`Nat`, times are `Nat`, nullable columns are `Option`.  JavaScript
falsiness of a numeric payload field is `none` (absent) or `some 0`.
-/

namespace SafarSathi

/-- Trip lifecycle status, as in the `trips.status` column. -/
inductive TripStatus
  | scheduled
  | active
  | completed
  | cancelled
  deriving DecidableEq, Repr

/-- Authenticated role attached to a connection. -/
inductive Role
  | driver
  | passenger
  | admin
  deriving DecidableEq, Repr

/-- Fan-out groups (socket.io rooms): `vehicle:<id>`, `route:<id>`,
`passengers`, `admin`.  The vehicle id is optional because
`handlePassengerCountUpdate` interpolates a possibly-undefined
`socket.vehicleId` into the room name. -/
inductive Room
  | vehicle (id : Option Nat)
  | route (id : Nat)
  | passengers
  | admin
  deriving DecidableEq, Repr

/-- Destination of an emitted event: back to the emitting socket
(`socket.emit`) or to a room excluding the emitter (`socket.to(...)`). -/
inductive Target
  | toSelf
  | room (r : Room)
  deriving DecidableEq, Repr

/-- Row of the `drivers` table (the columns the hub touches). -/
structure Driver where
  id : Nat
  userId : Nat
  status : String
  totalTrips : Nat
  deriving DecidableEq, Repr

/-- Row of the `vehicles` table (the columns the hub touches). -/
structure Vehicle where
  id : Nat
  registrationNumber : String
  assignedDriverId : Option Nat
  deriving DecidableEq, Repr

/-- Row of the `route_stops` table. -/
structure RouteStop where
  routeId : Nat
  busStopId : Nat
  stopOrder : Nat
  deriving DecidableEq, Repr

variable (α : Type)

/-- Row of the `trips` table (the columns the hub touches). -/
structure Trip where
  id : Nat
  vehicleId : Nat
  driverId : Nat
  routeId : Nat
  status : TripStatus
  actualStartTime : Option Nat
  actualEndTime : Option Nat
  passengerCount : Option α
  distanceCovered : Option α
  deriving DecidableEq, Repr

/-- Row of the append-only `vehicle_locations` table. -/
structure LocationFix where
  vehicleId : Nat
  tripId : Option Nat
  latitude : α
  longitude : α
  speed : Option α
  heading : Option α
  accuracy : Option α
  timestamp : Nat
  deriving DecidableEq, Repr

/-- Row of the `trip_stops` table (the columns the hub touches). -/
structure TripStop where
  tripId : Nat
  busStopId : Nat
  actualArrival : Option Nat
  passengersBoarded : Option α
  deriving DecidableEq, Repr

/-- Row of the `bus_stops` table (the columns the hub touches). -/
structure BusStop where
  id : Nat
  name : String
  latitude : α
  longitude : α
  deriving DecidableEq, Repr

/-- One row produced by the stops query of `calculateAndEmitETAs`. -/
structure StopRow where
  id : Nat
  name : String
  longitude : α
  latitude : α
  stopOrder : Nat
  deriving DecidableEq, Repr

/-- The `cacheData` snapshot built in `handleLocationUpdate`: raw payload
fields (no null-defaulting) plus the connection's bindings. -/
structure CacheData where
  vehicleId : Nat
  tripId : Option Nat
  latitude : α
  longitude : α
  speed : Option α
  heading : Option α
  accuracy : Option α
  timestamp : Nat
  driverId : Option Nat
  deriving DecidableEq, Repr

/-- One entry of the `etaUpdates` batch. -/
structure EtaEntry where
  stopId : Nat
  stopName : String
  eta : Int
  distance : α
  deriving DecidableEq, Repr

/-- Events emitted by the hub. -/
inductive Event
  | errorMsg (message : String)
  | driverStatus (driverId : Nat) (vehicleId : Option Nat)
      (registrationNumber : Option String) (tripId : Option Nat)
      (tripStatus : Option TripStatus) (status : String)
  | locationUpdate (data : CacheData α)
  | routeVehicleUpdate (routeId : Nat) (data : CacheData α)
  | vehicleLocationUpdate (data : CacheData α)
  | tripStarted (tripId : Nat) (startTime : Option Nat)
  | tripStatusUpdate (tripId : Nat) (vehicleId : Option Nat)
      (status : TripStatus) (time : Option Nat)
  | tripEnded (tripId : Nat) (endTime : Option Nat)
      (passengerCount : Option α) (distanceCovered : Option α)
  | passengerCountUpdate (vehicleId : Option Nat) (tripId : Nat)
      (passengerCount : Option α) (stopId : Option Nat)
  | etaUpdate (vehicleId : Option Nat) (tripId : Nat) (etas : List (EtaEntry α))
  deriving DecidableEq, Repr

/-- An emitted event together with its destination. -/
structure Emit where
  target : Target
  event : Event α
  deriving DecidableEq, Repr

/-- The Catalog Store: the durable relational tables the hub touches. -/
structure Catalog where
  drivers : List Driver
  vehicles : List Vehicle
  trips : List (Trip α)
  vehicleLocations : List (LocationFix α)
  tripStops : List (TripStop α)
  routeStops : List RouteStop
  busStops : List (BusStop α)
  deriving DecidableEq, Repr

/-- A cached per-driver session record (`setDriverSession`). -/
structure DriverSession where
  socketId : Nat
  vehicleId : Option Nat
  tripId : Option Nat
  status : String
  connectedAt : Nat
  deriving DecidableEq, Repr

/-- A cached ETA record (`cacheETA`). -/
structure EtaCache where
  eta : Int
  calculatedAt : Nat
  deriving DecidableEq, Repr

/-- The Session Store: key/value caches plus the pub/sub log. -/
structure SessionStore where
  driverSessions : List (Nat × DriverSession)
  cachedLocations : List (Nat × CacheData α)
  cachedETAs : List ((Nat × Nat × Option Nat) × EtaCache)
  activeTripData : List (Nat × (Trip α × Nat))
  published : List (Nat × CacheData α)
  deriving DecidableEq, Repr

/-- Combined store state visible to the hub. -/
structure HubState where
  catalog : Catalog α
  session : SessionStore α
  deriving DecidableEq, Repr

/-- Per-connection state: authenticated identity plus the mutable binding
fields the hub attaches (`socket.driverId`, `socket.vehicleId`,
`socket.tripId`), room memberships, and whether the driver event handlers
were registered (they are only when `handleDriverConnection` passes the
profile lookup). -/
structure Socket where
  id : Nat
  userId : Nat
  userRole : Role
  driverId : Option Nat
  vehicleId : Option Nat
  tripId : Option Nat
  rooms : List Room
  handlersRegistered : Bool
  deriving DecidableEq, Repr

/-- Result of running one event handler: new store state, new connection
state, and the list of emitted events in order. -/
structure HandlerResult where
  state : HubState α
  socket : Socket
  emits : List (Emit α)
  deriving DecidableEq, Repr

/-- Payload of a `location_update` event. -/
structure LocPayload where
  latitude : Option α
  longitude : Option α
  speed : Option α
  heading : Option α
  accuracy : Option α
  timestamp : Option Nat
  deriving DecidableEq, Repr

/-- Payload of an `end_trip` event. -/
structure EndPayload where
  passengerCount : Option α
  distanceCovered : Option α
  deriving DecidableEq, Repr

/-- Payload of a `passenger_count_update` event. -/
structure CountPayload where
  count : Option α
  stopId : Option Nat
  deriving DecidableEq, Repr

variable {α}

section Handlers

variable [LinearOrderedField α] [FloorRing α]

/-- JavaScript falsiness of an optional numeric value: absent or zero. -/
def falsy (v : Option α) : Bool :=
  match v with
  | none => true
  | some x => decide (x = 0)

/-- JavaScript `v || null` on a numeric value: a falsy value becomes null. -/
def orNull (v : Option α) : Option α :=
  if falsy v then none else v

/-- JavaScript `v || 0` on a numeric value. -/
def orZero (v : Option α) : α :=
  match v with
  | none => 0
  | some x => x

/-- Redis `SET`: overwrite the value stored at a key. -/
def setKey {κ β : Type} [DecidableEq κ] (l : List (κ × β)) (k : κ) (v : β) :
    List (κ × β) :=
  (k, v) :: l.filter (fun p => decide (p.1 ≠ k))

/-- Redis `GET`. -/
def getKey {κ β : Type} [DecidableEq κ] (l : List (κ × β)) (k : κ) : Option β :=
  (l.find? (fun p => decide (p.1 = k))).map Prod.snd

/-- Redis `DEL` on the driver-session key (`removeDriverSession`); with an
unbound driver id the modelled keys are untouched. -/
def removeSession (l : List (Nat × DriverSession)) (d : Option Nat) :
    List (Nat × DriverSession) :=
  match d with
  | none => l
  | some i => l.filter (fun p => decide (p.1 ≠ i))

/-- Error emitted back to the calling socket (`socket.emit('error', ...)`). -/
def selfError (m : String) : Emit α :=
  ⟨Target.toSelf, Event.errorMsg m⟩

/-- JavaScript `Math.round`: round half toward positive infinity. -/
def jsRound (x : α) : Int :=
  ⌊x + 1 / 2⌋

/-- JavaScript `Math.round(x * 100) / 100`: round to 2 decimal places. -/
def round2 (x : α) : α :=
  ((jsRound (x * 100) : Int) : α) / 100

/-- Stop orders of this trip's already-arrived stops, through the
`trip_stops` ⋈ `route_stops` join of the ETA subquery (the join is on
`bus_stop_id` alone, with no route restriction, exactly as in the SQL). -/
def arrivedOrders (c : Catalog α) (tid : Nat) : List Nat :=
  (c.tripStops.filter (fun ts =>
      decide (ts.tripId = tid ∧ ts.actualArrival ≠ none))).flatMap
    (fun ts =>
      (c.routeStops.filter (fun rs => decide (rs.busStopId = ts.busStopId))).map
        RouteStop.stopOrder)

/-- The subquery `COALESCE(MAX(rs2.stop_order), 0)`. -/
def maxArrivedOrder (c : Catalog α) (tid : Nat) : Nat :=
  (arrivedOrders c tid).foldr max 0

/-- The unfiltered join `route_stops ⋈ bus_stops ⋈ trips` of the stops
query, keyed by the trip id. -/
def etaJoinRows (c : Catalog α) (tid : Nat) : List (StopRow α) :=
  (c.trips.filter (fun t => decide (t.id = tid))).flatMap (fun t =>
    (c.routeStops.filter (fun rs => decide (rs.routeId = t.routeId))).flatMap
      (fun rs =>
        (c.busStops.filter (fun bs => decide (bs.id = rs.busStopId))).map
          (fun bs => ⟨bs.id, bs.name, bs.longitude, bs.latitude, rs.stopOrder⟩)))

/-- Comparison used for `ORDER BY rs.stop_order`. -/
def stopLE (a b : StopRow α) : Prop :=
  a.stopOrder ≤ b.stopOrder

instance : DecidableRel (stopLE (α := α)) :=
  fun a b => Nat.decLe a.stopOrder b.stopOrder

/-- The full stops query of `calculateAndEmitETAs`: filter by
`stop_order > COALESCE(MAX(...), 0)`, `ORDER BY stop_order`, `LIMIT 5`. -/
def etaQueryRows (c : Catalog α) (tid : Nat) : List (StopRow α) :=
  (((etaJoinRows c tid).filter (fun r =>
      decide (maxArrivedOrder c tid < r.stopOrder))).insertionSort stopLE).take 5

/-- The per-stop ETA entry: distance from the current fix via the distance
function, `eta = Math.round(distance / 30 * 60)`, distance reported
rounded to 2 decimals. -/
def mkEtaEntry (dist : α → α → α → α → α) (lat lon : α) (s : StopRow α) :
    EtaEntry α :=
  { stopId := s.id
    stopName := s.name
    eta := jsRound (dist lat lon s.latitude s.longitude / 30 * 60)
    distance := round2 (dist lat lon s.latitude s.longitude) }

/-- The ETA estimator `calculateAndEmitETAs`: no-op without a bound trip;
otherwise run the stops query, cache one ETA per stop, and broadcast the
batch to the `passengers` room as a single event only when at least one
stop was found. -/
def calculateAndEmitETAs (dist : α → α → α → α → α) (now : Nat)
    (st : HubState α) (sock : Socket) (lat lon : α) :
    HubState α × List (Emit α) :=
  match sock.tripId with
  | none => (st, [])
  | some tid =>
    let rows := etaQueryRows st.catalog tid
    if 0 < rows.length then
      let entries := rows.map (mkEtaEntry dist lat lon)
      let session :=
        rows.foldl (fun s r =>
          let v : EtaCache := ⟨(mkEtaEntry dist lat lon r).eta, now⟩
          { s with cachedETAs :=
              setKey s.cachedETAs (tid, r.id, sock.vehicleId) v }) st.session
      ({ st with session := session },
       [⟨Target.room Room.passengers, Event.etaUpdate sock.vehicleId tid entries⟩])
    else (st, [])

/-- The durable `vehicle_locations` row inserted by `handleLocationUpdate`:
falsy speed/heading/accuracy are defaulted to null, the timestamp to now. -/
def mkFix (sock : Socket) (now : Nat) (vid : Nat) (p : LocPayload α) :
    LocationFix α :=
  ⟨vid, sock.tripId, p.latitude.getD 0, p.longitude.getD 0,
   orNull p.speed, orNull p.heading, orNull p.accuracy, p.timestamp.getD now⟩

/-- The `cacheData` snapshot of `handleLocationUpdate`: the raw payload
fields (no null-defaulting) plus the connection's bindings. -/
def mkCache (sock : Socket) (now : Nat) (vid : Nat) (p : LocPayload α) :
    CacheData α :=
  ⟨vid, sock.tripId, p.latitude.getD 0, p.longitude.getD 0,
   p.speed, p.heading, p.accuracy, p.timestamp.getD now, sock.driverId⟩

/-- The `location_update` handler: falsy latitude/longitude are rejected
with `Invalid location data`; a connection without a bound vehicle is
rejected with `No vehicle assigned`; otherwise a fix is appended to
`vehicle_locations` (falsy speed/heading/accuracy stored as null), the
cache snapshot (raw fields) is overwritten and published, the fix is
fanned out to the vehicle room, the trip's route room and the admin room,
and the ETA estimator runs. -/
def handleLocationUpdate (dist : α → α → α → α → α) (now : Nat)
    (st : HubState α) (sock : Socket) (p : LocPayload α) : HandlerResult α :=
  if falsy p.latitude || falsy p.longitude then
    ⟨st, sock, [selfError "Invalid location data"]⟩
  else
    match sock.vehicleId with
    | none => ⟨st, sock, [selfError "No vehicle assigned"]⟩
    | some vid =>
      let lat := p.latitude.getD 0
      let lon := p.longitude.getD 0
      let fix := mkFix sock now vid p
      let cache := mkCache sock now vid p
      let cat := { st.catalog with
        vehicleLocations := st.catalog.vehicleLocations ++ [fix] }
      let ses := { st.session with
        cachedLocations := setKey st.session.cachedLocations vid cache
        published := st.session.published ++ [(vid, cache)] }
      let routeEmits :=
        match sock.tripId with
        | some t =>
          match (cat.trips.filter (fun tr => decide (tr.id = t))).head? with
          | some tr =>
            [(⟨Target.room (Room.route tr.routeId),
               Event.routeVehicleUpdate tr.routeId cache⟩ : Emit α)]
          | none => []
        | none => []
      let stAfter := calculateAndEmitETAs dist now ⟨cat, ses⟩ sock lat lon
      ⟨stAfter.1, sock,
       [⟨Target.room (Room.vehicle (some vid)), Event.locationUpdate cache⟩]
         ++ routeEmits
         ++ [⟨Target.room Room.admin, Event.vehicleLocationUpdate cache⟩]
         ++ stAfter.2⟩

/-- The `SET` clause of the `handleTripStart` update. -/
def activateTrip (now : Nat) (t : Trip α) : Trip α :=
  { t with status := TripStatus.active, actualStartTime := some now }

/-- The `SET` clause of the `handleTripEnd` update. -/
def completeTrip (now : Nat) (pc dc : α) (t : Trip α) : Trip α :=
  { t with status := TripStatus.completed, actualEndTime := some now,
           passengerCount := some pc, distanceCovered := some dc }

/-- The conditional update of `handleTripStart`: set status `active` and
the actual start time on rows matching trip id and driver id; returns the
new table and the `RETURNING *` rows. -/
def startUpdate (trips : List (Trip α)) (tid : Nat) (did : Option Nat)
    (now : Nat) : List (Trip α) × List (Trip α) :=
  (trips.map (fun t =>
      if t.id = tid ∧ some t.driverId = did then activateTrip now t else t),
   (trips.filter (fun t => decide (t.id = tid ∧ some t.driverId = did))).map
     (activateTrip now))

/-- The `start_trip` handler. -/
def handleTripStart (now : Nat) (st : HubState α) (sock : Socket) :
    HandlerResult α :=
  match sock.tripId with
  | none => ⟨st, sock, [selfError "No active trip found"]⟩
  | some tid =>
    let r := startUpdate st.catalog.trips tid sock.driverId now
    match r.2.head? with
    | none => ⟨st, sock, [selfError "Failed to start trip"]⟩
    | some trip =>
      ⟨⟨{ st.catalog with trips := r.1 },
        { st.session with
          activeTripData := setKey st.session.activeTripData tid (trip, now) }⟩,
       sock,
       [⟨Target.toSelf, Event.tripStarted tid trip.actualStartTime⟩,
        ⟨Target.room (Room.route trip.routeId),
         Event.tripStatusUpdate tid sock.vehicleId TripStatus.active
           trip.actualStartTime⟩]⟩

/-- The conditional update of `handleTripEnd`: set status `completed`,
actual end time, passenger count and distance covered on rows matching
trip id and driver id; returns the new table and the `RETURNING *` rows. -/
def endUpdate (trips : List (Trip α)) (tid : Nat) (did : Option Nat)
    (now : Nat) (pc dc : α) : List (Trip α) × List (Trip α) :=
  (trips.map (fun t =>
      if t.id = tid ∧ some t.driverId = did then completeTrip now pc dc t else t),
   (trips.filter (fun t => decide (t.id = tid ∧ some t.driverId = did))).map
     (completeTrip now pc dc))

/-- The `end_trip` handler. -/
def handleTripEnd (now : Nat) (st : HubState α) (sock : Socket)
    (p : EndPayload α) : HandlerResult α :=
  match sock.tripId with
  | none => ⟨st, sock, [selfError "No active trip found"]⟩
  | some tid =>
    let pc := orZero p.passengerCount
    let dc := orZero p.distanceCovered
    let r := endUpdate st.catalog.trips tid sock.driverId now pc dc
    match r.2.head? with
    | none => ⟨st, sock, [selfError "Failed to end trip"]⟩
    | some trip =>
      ⟨⟨{ st.catalog with
          trips := r.1
          drivers := st.catalog.drivers.map (fun d =>
            if some d.id = sock.driverId then
              { d with totalTrips := d.totalTrips + 1 }
            else d) },
        { st.session with
          driverSessions := removeSession st.session.driverSessions sock.driverId }⟩,
       { sock with tripId := none },
       [⟨Target.toSelf,
         Event.tripEnded tid trip.actualEndTime trip.passengerCount
           trip.distanceCovered⟩,
        ⟨Target.room (Room.route trip.routeId),
         Event.tripStatusUpdate tid sock.vehicleId TripStatus.completed
           trip.actualEndTime⟩]⟩

/-- Upsert of a `trip_stops` row on conflict key (trip id, bus stop id):
overwrite `passengers_boarded` and set `actual_arrival = NOW()` on the
existing row, or insert a fresh row. -/
def upsertTripStop (l : List (TripStop α)) (tid sid now : Nat)
    (cnt : Option α) : List (TripStop α) :=
  if l.any (fun r => decide (r.tripId = tid ∧ r.busStopId = sid)) then
    l.map (fun r =>
      if r.tripId = tid ∧ r.busStopId = sid then
        { r with actualArrival := some now, passengersBoarded := cnt }
      else r)
  else l ++ [⟨tid, sid, some now, cnt⟩]

/-- The `passenger_count_update` handler: updates `passenger_count`
matched on trip id alone, optionally upserts the trip-stop row, and fans
the count out to the vehicle room. -/
def handlePassengerCountUpdate (now : Nat) (st : HubState α) (sock : Socket)
    (p : CountPayload α) : HandlerResult α :=
  match sock.tripId with
  | none => ⟨st, sock, [selfError "No active trip found"]⟩
  | some tid =>
    let trips := st.catalog.trips.map (fun t =>
      if t.id = tid then { t with passengerCount := p.count } else t)
    let stops :=
      match p.stopId with
      | some sid => upsertTripStop st.catalog.tripStops tid sid now p.count
      | none => st.catalog.tripStops
    ⟨⟨{ st.catalog with trips := trips, tripStops := stops }, st.session⟩,
     sock,
     [⟨Target.room (Room.vehicle sock.vehicleId),
       Event.passengerCountUpdate sock.vehicleId tid p.count p.stopId⟩]⟩

/-- One row of the driver-connection lookup. -/
structure DriverRow where
  driverId : Nat
  driverStatus : String
  vehicleId : Option Nat
  registrationNumber : Option String
  tripId : Option Nat
  routeId : Option Nat
  tripStatus : Option TripStatus
  deriving DecidableEq, Repr

/-- The driver-connection query: `drivers` left-joined with assigned
`vehicles`, left-joined with that vehicle's `active` trips, filtered by
user id. -/
def driverQuery (c : Catalog α) (uid : Nat) : List DriverRow :=
  (c.drivers.filter (fun d => decide (d.userId = uid))).flatMap (fun d =>
    let vs := c.vehicles.filter (fun v => decide (v.assignedDriverId = some d.id))
    if vs.isEmpty then [⟨d.id, d.status, none, none, none, none, none⟩]
    else
      vs.flatMap (fun v =>
        let ts := c.trips.filter (fun t =>
          decide (t.vehicleId = v.id ∧ t.status = TripStatus.active))
        if ts.isEmpty then
          [⟨d.id, d.status, some v.id, some v.registrationNumber, none, none,
            none⟩]
        else
          ts.map (fun t =>
            ⟨d.id, d.status, some v.id, some v.registrationNumber, some t.id,
             some t.routeId, some t.status⟩)))

/-- The driver-connection flow: on an empty lookup emit the
profile-not-found error and return without binding, registering handlers
or writing a session; otherwise bind the connection, join the vehicle
room, write the DriverSession and emit the status snapshot. -/
def handleDriverConnection (now : Nat) (st : HubState α) (sock : Socket) :
    HandlerResult α :=
  match (driverQuery st.catalog sock.userId).head? with
  | none => ⟨st, sock, [selfError "Driver profile not found"]⟩
  | some row =>
    let sock1 := { sock with
      driverId := some row.driverId
      vehicleId := row.vehicleId
      tripId := row.tripId
      rooms :=
        match row.vehicleId with
        | some v => sock.rooms ++ [Room.vehicle (some v)]
        | none => sock.rooms
      handlersRegistered := true }
    ⟨⟨st.catalog,
      { st.session with
        driverSessions :=
          setKey st.session.driverSessions row.driverId
            ⟨sock.id, row.vehicleId, row.tripId, "connected", now⟩ }⟩,
     sock1,
     [⟨Target.toSelf,
       Event.driverStatus row.driverId row.vehicleId row.registrationNumber
         row.tripId row.tripStatus row.driverStatus⟩]⟩

/-- Driver-originated events dispatched by the socket layer. -/
inductive DriverEvent (β : Type)
  | locationUpdate (p : LocPayload β)
  | startTrip
  | endTrip (p : EndPayload β)
  | passengerCountUpdate (p : CountPayload β)

/-- Dispatch of a driver event: the per-event handlers run only when they
were registered by a successful `handleDriverConnection`; otherwise the
event is silently dropped by the socket layer. -/
def onDriverEvent (dist : α → α → α → α → α) (now : Nat) (st : HubState α)
    (sock : Socket) (ev : DriverEvent α) : HandlerResult α :=
  if sock.handlersRegistered then
    match ev with
    | DriverEvent.locationUpdate p => handleLocationUpdate dist now st sock p
    | DriverEvent.startTrip => handleTripStart now st sock
    | DriverEvent.endTrip p => handleTripEnd now st sock p
    | DriverEvent.passengerCountUpdate p => handlePassengerCountUpdate now st sock p
  else ⟨st, sock, []⟩

/-- The disconnection reconciler: for a bound driver, delete the
DriverSession and mark the driver profile inactive; otherwise no store
change. -/
def handleDisconnection (st : HubState α) (sock : Socket) : HubState α :=
  if sock.userRole = Role.driver then
    match sock.driverId with
    | some d =>
      ⟨{ st.catalog with
         drivers := st.catalog.drivers.map (fun dr =>
           if dr.id = d then { dr with status := "inactive" } else dr) },
       { st.session with
         driverSessions := st.session.driverSessions.filter
           (fun p => decide (p.1 ≠ d)) }⟩
    | none => st
  else st

end Handlers

/-- Four-quadrant arctangent as JavaScript `Math.atan2(y, x)`. -/
noncomputable def atan2 (y x : ℝ) : ℝ :=
  if 0 < x then Real.arctan (y / x)
  else if x < 0 ∧ 0 ≤ y then Real.arctan (y / x) + Real.pi
  else if x < 0 ∧ y < 0 then Real.arctan (y / x) - Real.pi
  else if x = 0 ∧ 0 < y then Real.pi / 2
  else if x = 0 ∧ y < 0 then -(Real.pi / 2)
  else 0

/-- The haversine great-circle distance of `calculateDistance`, with
Earth radius 6371 km, over the reals. -/
noncomputable def calculateDistance (lat1 lon1 lat2 lon2 : ℝ) : ℝ :=
  let r : ℝ := 6371
  let dLat := (lat2 - lat1) * Real.pi / 180
  let dLon := (lon2 - lon1) * Real.pi / 180
  let a := Real.sin (dLat / 2) * Real.sin (dLat / 2) +
    Real.cos (lat1 * Real.pi / 180) * Real.cos (lat2 * Real.pi / 180) *
      Real.sin (dLon / 2) * Real.sin (dLon / 2)
  let c := 2 * atan2 (Real.sqrt a) (Real.sqrt (1 - a))
  r * c

section HelperLemmas

variable {α : Type}

instance : IsTotal (StopRow α) stopLE :=
  ⟨fun a b => Nat.le_total a.stopOrder b.stopOrder⟩

instance : IsTrans (StopRow α) stopLE :=
  ⟨fun _ _ _ h1 h2 => Nat.le_trans h1 h2⟩

/-- Every member of a list of naturals is bounded by the `COALESCE MAX 0`
fold. -/
theorem le_foldr_max {l : List Nat} {o : Nat} (h : o ∈ l) :
    o ≤ l.foldr max 0 := by
  induction l with
  | nil => cases h
  | cons a t ih =>
    rw [List.foldr_cons]
    rcases List.mem_cons.mp h with h1 | h2
    · exact h1 ▸ le_max_left a (t.foldr max 0)
    · exact le_trans (ih h2) (le_max_right a (t.foldr max 0))

/-- A fold over the session store that preserves a projection preserves it
over a whole list. -/
theorem foldl_session_proj {β γ : Type} (g : SessionStore α → γ)
    (f : SessionStore α → β → SessionStore α)
    (hf : ∀ s b, g (f s b) = g s) :
    ∀ (l : List β) (s : SessionStore α), g (l.foldl f s) = g s := by
  intro l
  induction l with
  | nil => intro s; rfl
  | cons a t ih => intro s; rw [List.foldl_cons, ih, hf]

/-- The ETA estimator never touches the Catalog Store. -/
theorem calcETAs_catalog [LinearOrderedField α] [FloorRing α]
    (dist : α → α → α → α → α) (now : Nat) (st : HubState α) (sock : Socket)
    (lat lon : α) :
    (calculateAndEmitETAs dist now st sock lat lon).1.catalog = st.catalog := by
  unfold calculateAndEmitETAs
  cases sock.tripId with
  | none => rfl
  | some tid =>
    by_cases h : 0 < (etaQueryRows st.catalog tid).length <;> simp [h]

/-- The ETA estimator never touches the cached-location table. -/
theorem calcETAs_cachedLocations [LinearOrderedField α] [FloorRing α]
    (dist : α → α → α → α → α) (now : Nat) (st : HubState α) (sock : Socket)
    (lat lon : α) :
    (calculateAndEmitETAs dist now st sock lat lon).1.session.cachedLocations
      = st.session.cachedLocations := by
  unfold calculateAndEmitETAs
  cases sock.tripId with
  | none => rfl
  | some tid =>
    by_cases h : 0 < (etaQueryRows st.catalog tid).length <;> simp [h]
    exact foldl_session_proj SessionStore.cachedLocations
      (fun s r =>
        let v : EtaCache := ⟨(mkEtaEntry dist lat lon r).eta, now⟩
        { s with cachedETAs := setKey s.cachedETAs (tid, r.id, sock.vehicleId) v })
      (fun _ _ => rfl) _ _

/-- Reading back a key just written to a key/value cache. -/
theorem getKey_setKey {κ β : Type} [DecidableEq κ] (l : List (κ × β)) (k : κ)
    (v : β) : getKey (setKey l k v) k = some v := by
  simp [getKey, setKey]

/-- Unfolding of `handleTripEnd` when the conditional update matches at
least one row (the head of the `RETURNING` rows comes from `trip0`). -/
theorem handleTripEnd_success_eq [LinearOrderedField α] [FloorRing α]
    (now : Nat) (st : HubState α) (sock : Socket) (p : EndPayload α)
    (tid : Nat) (trip0 : Trip α)
    (ht : sock.tripId = some tid)
    (h0 : (st.catalog.trips.filter
        (fun t => decide (t.id = tid ∧ some t.driverId = sock.driverId))).head?
        = some trip0) :
    handleTripEnd now st sock p
      = ⟨⟨{ st.catalog with
            trips := (endUpdate st.catalog.trips tid sock.driverId now
              (orZero p.passengerCount) (orZero p.distanceCovered)).1
            drivers := st.catalog.drivers.map (fun dr =>
              if some dr.id = sock.driverId then
                { dr with totalTrips := dr.totalTrips + 1 }
              else dr) },
          { st.session with
            driverSessions := removeSession st.session.driverSessions sock.driverId }⟩,
         { sock with tripId := none },
         [⟨Target.toSelf,
           Event.tripEnded tid (some now) (some (orZero p.passengerCount))
             (some (orZero p.distanceCovered))⟩,
          ⟨Target.room (Room.route trip0.routeId),
           Event.tripStatusUpdate tid sock.vehicleId TripStatus.completed
             (some now)⟩]⟩ := by
  have hrows : (endUpdate st.catalog.trips tid sock.driverId now
      (orZero p.passengerCount) (orZero p.distanceCovered)).2.head?
      = some (completeTrip now (orZero p.passengerCount)
          (orZero p.distanceCovered) trip0) := by
    unfold endUpdate
    rw [List.head?_map, h0]
    rfl
  unfold handleTripEnd
  rw [ht]
  simp only [hrows]
  rfl

end HelperLemmas

section Fixtures

/-- Distance function used when instantiating the model at `ℚ`. -/
def qdist : ℚ → ℚ → ℚ → ℚ → ℚ := fun _ _ _ _ => 0

/-- Catalog with driver 5 (user 7), vehicle 2 assigned to driver 5, and an
active trip 1 on vehicle 2 owned by driver 5 on route 3. -/
def exCatalog : Catalog ℚ :=
  ⟨[⟨5, 7, "active", 0⟩], [⟨2, "REG", some 5⟩],
   [⟨1, 2, 5, 3, TripStatus.active, some 50, none, none, none⟩],
   [], [], [], []⟩

/-- Session store with a live session for driver 5. -/
def exSession : SessionStore ℚ :=
  ⟨[(5, ⟨10, some 2, some 1, "connected", 50⟩)], [], [], [], []⟩

def exState : HubState ℚ := ⟨exCatalog, exSession⟩

/-- A bound driver connection: driver 5, vehicle 2, trip 1. -/
def exSock : Socket := ⟨10, 7, Role.driver, some 5, some 2, some 1, [], true⟩

/-- A driver connection with no bound vehicle. -/
def exSockNoVeh : Socket := ⟨10, 7, Role.driver, some 5, none, some 1, [], true⟩

/-- A fresh connection before any handler registration. -/
def exFreshSock : Socket := ⟨10, 7, Role.driver, none, none, none, [], false⟩

/-- An empty store. -/
def exEmptyState : HubState ℚ := ⟨⟨[], [], [], [], [], [], []⟩, ⟨[], [], [], [], []⟩⟩

end Fixtures

/-- C3: a `location_update` whose latitude or longitude is missing or
falsy yields only the `Invalid location data` error with no store writes,
no fan-out and no ETA computation; one from a connection with no bound
vehicle yields only the `No vehicle assigned` error with no store writes,
no fan-out and no ETA computation. -/
theorem c3_location_validation {α : Type} [LinearOrderedField α]
    [FloorRing α] (dist : α → α → α → α → α) (now : Nat) (st : HubState α)
    (sock : Socket) (p : LocPayload α) :
    ((falsy p.latitude || falsy p.longitude) = true →
      handleLocationUpdate dist now st sock p
        = ⟨st, sock, [selfError "Invalid location data"]⟩)
    ∧ ((falsy p.latitude || falsy p.longitude) = false →
        sock.vehicleId = none →
      handleLocationUpdate dist now st sock p
        = ⟨st, sock, [selfError "No vehicle assigned"]⟩) := by
  constructor
  · intro h
    simp [handleLocationUpdate, h]
  · intro h hv
    simp [handleLocationUpdate, h, hv]

/-- Witness for C3 at concrete inputs: a missing latitude and a
vehicle-less connection. -/
theorem c3_location_validation_witness :
    ((falsy (α := ℚ) none || falsy (some (78 : ℚ))) = true
      ∧ handleLocationUpdate qdist 5 exState exSock
          ⟨none, some 78, none, none, none, none⟩
        = ⟨exState, exSock, [selfError "Invalid location data"]⟩)
    ∧ ((falsy (some (30 : ℚ)) || falsy (some (78 : ℚ))) = false
      ∧ exSockNoVeh.vehicleId = none
      ∧ handleLocationUpdate qdist 5 exState exSockNoVeh
          ⟨some 30, some 78, none, none, none, none⟩
        = ⟨exState, exSockNoVeh, [selfError "No vehicle assigned"]⟩) :=
  ⟨⟨by decide,
    (c3_location_validation qdist 5 exState exSock
      ⟨none, some 78, none, none, none, none⟩).1 (by decide)⟩,
   ⟨by decide, rfl,
    (c3_location_validation qdist 5 exState exSockNoVeh
      ⟨some 30, some 78, none, none, none, none⟩).2 (by decide) rfl⟩⟩

/-- C7: on transport close, the trips table is never modified (an
in-progress trip stays as it was, never auto-completed); for a bound
driver connection the DriverSession is deleted and the driver profile is
set inactive; a non-driver disconnection performs no store writes at
all. -/
theorem c7_disconnection {α : Type} (st : HubState α) (sock : Socket) :
    (handleDisconnection st sock).catalog.trips = st.catalog.trips
    ∧ (∀ d : Nat, sock.userRole = Role.driver → sock.driverId = some d →
        (handleDisconnection st sock).session.driverSessions
            = st.session.driverSessions.filter (fun q => decide (q.1 ≠ d))
        ∧ (handleDisconnection st sock).catalog.drivers
            = st.catalog.drivers.map (fun dr =>
                if dr.id = d then { dr with status := "inactive" } else dr))
    ∧ (sock.userRole ≠ Role.driver → handleDisconnection st sock = st) := by
  refine ⟨?_, ?_, ?_⟩
  · unfold handleDisconnection
    by_cases h : sock.userRole = Role.driver
    · cases sock.driverId <;> simp [h]
    · simp [h]
  · intro d hrole hd
    unfold handleDisconnection
    rw [hd]
    simp [hrole]
  · intro h
    unfold handleDisconnection
    cases sock.driverId <;> simp [h]

/-- Witness for C7 at a concrete bound driver connection and at a
concrete passenger connection. -/
theorem c7_disconnection_witness :
    (handleDisconnection exState exSock).catalog.trips = exState.catalog.trips
    ∧ (exSock.userRole = Role.driver ∧ exSock.driverId = some 5
       ∧ (handleDisconnection exState exSock).session.driverSessions
           = exState.session.driverSessions.filter (fun q => decide (q.1 ≠ 5))
       ∧ (handleDisconnection exState exSock).catalog.drivers
           = exState.catalog.drivers.map (fun dr =>
               if dr.id = 5 then { dr with status := "inactive" } else dr))
    ∧ ((⟨10, 7, Role.passenger, none, none, none, [], false⟩ : Socket).userRole
         ≠ Role.driver
       ∧ handleDisconnection exState ⟨10, 7, Role.passenger, none, none, none, [], false⟩
           = exState) :=
  ⟨(c7_disconnection exState exSock).1,
   ⟨rfl, rfl,
    ((c7_disconnection exState exSock).2.1 5 rfl rfl).1,
    ((c7_disconnection exState exSock).2.1 5 rfl rfl).2⟩,
   ⟨by decide,
    (c7_disconnection exState
      ⟨10, 7, Role.passenger, none, none, none, [], false⟩).2.2 (by decide)⟩⟩

/-- C9: when the driver-profile lookup returns no rows the connection gets
only the `Driver profile not found` error, the stores and the connection
binding are untouched and no handlers are registered, so every subsequent
driver event on the connection changes nothing and emits nothing. -/
theorem c9_profile_not_found {α : Type} [LinearOrderedField α] [FloorRing α]
    (now : Nat) (st : HubState α) (sock : Socket)
    (h : driverQuery st.catalog sock.userId = [])
    (hreg : sock.handlersRegistered = false) :
    handleDriverConnection now st sock
        = ⟨st, sock, [selfError "Driver profile not found"]⟩
    ∧ (∀ (dist : α → α → α → α → α) (now2 : Nat) (st2 : HubState α)
        (ev : DriverEvent α),
        onDriverEvent dist now2 st2 sock ev = ⟨st2, sock, []⟩) := by
  constructor
  · unfold handleDriverConnection
    rw [h]
    rfl
  · intro dist now2 st2 ev
    unfold onDriverEvent
    rw [hreg]
    rfl

/-- Witness for C9 on an empty catalog and a fresh connection. -/
theorem c9_profile_not_found_witness :
    driverQuery (α := ℚ) exEmptyState.catalog exFreshSock.userId = []
    ∧ exFreshSock.handlersRegistered = false
    ∧ handleDriverConnection 5 exEmptyState exFreshSock
        = ⟨exEmptyState, exFreshSock, [selfError "Driver profile not found"]⟩
    ∧ onDriverEvent qdist 6 exState exFreshSock DriverEvent.startTrip
        = ⟨exState, exFreshSock, []⟩ :=
  ⟨by decide, rfl,
   (c9_profile_not_found 5 exEmptyState exFreshSock (by decide) rfl).1,
   (c9_profile_not_found 5 exEmptyState exFreshSock (by decide) rfl).2
     qdist 6 exState DriverEvent.startTrip⟩

/-- C10: `passenger_count_update` with a bound trip updates the trip's
passenger count matched on trip id alone — no driver-ownership match and
no status constraint, so the overwrite also happens when the trip is not
owned by the bound driver or is already completed — and, when a stop id
is supplied, upserts the (trip, stop) row with arrival time now and the
boarded count overwritten; the session store is untouched. -/
theorem c10_passenger_count {α : Type} [LinearOrderedField α] [FloorRing α]
    (now : Nat) (st : HubState α) (sock : Socket) (p : CountPayload α)
    (tid : Nat) (ht : sock.tripId = some tid) :
    (handlePassengerCountUpdate now st sock p).state.catalog.trips
        = st.catalog.trips.map (fun t =>
            if t.id = tid then { t with passengerCount := p.count } else t)
    ∧ (∀ t ∈ st.catalog.trips, t.id = tid →
        (some t.driverId ≠ sock.driverId ∨ t.status = TripStatus.completed) →
        { t with passengerCount := p.count }
          ∈ (handlePassengerCountUpdate now st sock p).state.catalog.trips)
    ∧ (∀ sid : Nat, p.stopId = some sid →
        (handlePassengerCountUpdate now st sock p).state.catalog.tripStops
            = upsertTripStop st.catalog.tripStops tid sid now p.count
        ∧ ∀ ts ∈ (handlePassengerCountUpdate now st sock p).state.catalog.tripStops,
            ts.tripId = tid → ts.busStopId = sid →
            ts.actualArrival = some now ∧ ts.passengersBoarded = p.count)
    ∧ (p.stopId = none →
        (handlePassengerCountUpdate now st sock p).state.catalog.tripStops
          = st.catalog.tripStops)
    ∧ (handlePassengerCountUpdate now st sock p).state.session = st.session := by
  have hm : ∀ q : CountPayload α,
      handlePassengerCountUpdate now st sock q
        = ⟨⟨{ st.catalog with
              trips := st.catalog.trips.map (fun t =>
                if t.id = tid then { t with passengerCount := q.count } else t)
              tripStops :=
                match q.stopId with
                | some sid => upsertTripStop st.catalog.tripStops tid sid now q.count
                | none => st.catalog.tripStops },
            st.session⟩,
           sock,
           [⟨Target.room (Room.vehicle sock.vehicleId),
             Event.passengerCountUpdate sock.vehicleId tid q.count q.stopId⟩]⟩ := by
    intro q
    unfold handlePassengerCountUpdate
    rw [ht]
  refine ⟨?_, ?_, ?_, ?_, ?_⟩
  · rw [hm]
  · intro t htm hid _
    rw [hm]
    simp only
    exact List.mem_map.mpr ⟨t, htm, by rw [if_pos hid]⟩
  · intro sid hsid
    constructor
    · rw [hm, hsid]
    · intro ts hts h1 h2
      rw [hm, hsid] at hts
      simp only at hts
      unfold upsertTripStop at hts
      by_cases hex : st.catalog.tripStops.any
          (fun r => decide (r.tripId = tid ∧ r.busStopId = sid)) = true
      · rw [if_pos hex] at hts
        rcases List.mem_map.mp hts with ⟨r, _, hr⟩
        by_cases hk : r.tripId = tid ∧ r.busStopId = sid
        · rw [if_pos hk] at hr
          rw [← hr]
          exact ⟨rfl, rfl⟩
        · rw [if_neg hk] at hr
          rw [← hr] at h1 h2
          exact absurd ⟨h1, h2⟩ hk
      · rw [if_neg hex] at hts
        rcases List.mem_append.mp hts with hin | hnew
        · exfalso
          rw [List.any_eq_true] at hex
          push_neg at hex
          exact absurd (by simpa using And.intro h1 h2) (by simpa using hex ts hin)
        · rcases List.mem_singleton.mp hnew with rfl
          exact ⟨rfl, rfl⟩
  · intro hnone
    rw [hm, hnone]
  · rw [hm]

/-- Witness for C10: the bound trip is owned by a different driver and is
already completed, yet the count is overwritten; the stop row for stop 11
already exists and is overwritten with arrival time now. -/
theorem c10_passenger_count_witness :
    exSock.tripId = some 1
    ∧ (handlePassengerCountUpdate 100
        ⟨⟨[], [], [⟨1, 2, 6, 3, TripStatus.completed, some 50, some 60, some 4, some 9⟩],
          [], [⟨1, 11, some 20, some 3⟩], [], []⟩, exSession⟩
        exSock ⟨some 9, some 11⟩).state.catalog.trips
      = ([⟨1, 2, 6, 3, TripStatus.completed, some 50, some 60, some 4, some 9⟩]
          : List (Trip ℚ)).map (fun t =>
            if t.id = 1 then { t with passengerCount := some 9 } else t)
    ∧ (∀ ts ∈ (handlePassengerCountUpdate 100
        ⟨⟨[], [], [⟨1, 2, 6, 3, TripStatus.completed, some 50, some 60, some 4, some 9⟩],
          [], [⟨1, 11, some 20, some 3⟩], [], []⟩, exSession⟩
        exSock ⟨some 9, some 11⟩).state.catalog.tripStops,
        ts.tripId = 1 → ts.busStopId = 11 →
        ts.actualArrival = some 100 ∧ ts.passengersBoarded = some 9) :=
  ⟨rfl,
   (c10_passenger_count 100
     ⟨⟨[], [], [⟨1, 2, 6, 3, TripStatus.completed, some 50, some 60, some 4, some 9⟩],
       [], [⟨1, 11, some 20, some 3⟩], [], []⟩, exSession⟩
     exSock ⟨some 9, some 11⟩ 1 rfl).1,
   ((c10_passenger_count 100
     ⟨⟨[], [], [⟨1, 2, 6, 3, TripStatus.completed, some 50, some 60, some 4, some 9⟩],
       [], [⟨1, 11, some 20, some 3⟩], [], []⟩, exSession⟩
     exSock ⟨some 9, some 11⟩ 1 rfl).2.2.1 11 rfl).2⟩

/-- Catalog where trip 1 is owned by the bound driver 5 but already
completed. -/
def c1Catalog : Catalog ℚ :=
  ⟨[⟨5, 7, "active", 0⟩], [⟨2, "REG", some 5⟩],
   [⟨1, 2, 5, 3, TripStatus.completed, some 50, some 60, some 4, some 9⟩],
   [], [], [], []⟩

/-- Counterexample to C1 as stated: the bound trip is owned by the calling
driver but already `completed`; the conditional update still matches the
row (its `WHERE` clause checks only trip id and driver id, not status), so
no `StartFailed` error is emitted and the trip is re-set to `active` with
a fresh actual start time. -/
theorem c1_counterexample :
    (⟨c1Catalog, exSession⟩ : HubState ℚ).catalog.trips.map Trip.status
        = [TripStatus.completed]
    ∧ exSock.tripId = some 1
    ∧ selfError "Failed to start trip"
        ∉ (handleTripStart 100 ⟨c1Catalog, exSession⟩ exSock).emits
    ∧ (handleTripStart 100 ⟨c1Catalog, exSession⟩ exSock).state.catalog.trips.map
        Trip.status = [TripStatus.active]
    ∧ (handleTripStart 100 ⟨c1Catalog, exSession⟩ exSock).state.catalog.trips.map
        Trip.actualStartTime = [some 100] := by
  decide

/-- C1 (amended): starting a trip not owned by the calling driver — the
only situation in which the conditional update, matched on trip id and
driver id, affects zero rows — yields `Failed to start trip` and leaves
every store unchanged; an owned trip is matched regardless of its current
status. -/
theorem c1_start_requires_ownership {α : Type} (now : Nat) (st : HubState α)
    (sock : Socket) (tid : Nat) (ht : sock.tripId = some tid)
    (h : ∀ t ∈ st.catalog.trips, ¬(t.id = tid ∧ some t.driverId = sock.driverId)) :
    handleTripStart now st sock = ⟨st, sock, [selfError "Failed to start trip"]⟩ := by
  have hf : st.catalog.trips.filter
      (fun t => decide (t.id = tid ∧ some t.driverId = sock.driverId)) = [] := by
    rw [List.filter_eq_nil_iff]
    intro t htm
    simpa using h t htm
  have h2 : (startUpdate st.catalog.trips tid sock.driverId now).2 = [] := by
    unfold startUpdate
    rw [hf]
    rfl
  simp only [handleTripStart, ht, h2, List.head?_nil]

/-- Witness for C1 (amended): the bound trip exists but belongs to driver
6, not to the calling driver 5. -/
theorem c1_start_requires_ownership_witness :
    exSock.tripId = some 1
    ∧ (∀ t ∈ (⟨⟨[⟨5, 7, "active", 0⟩], [⟨2, "REG", some 5⟩],
          [⟨1, 2, 6, 3, TripStatus.active, some 50, none, none, none⟩],
          [], [], [], []⟩, exSession⟩ : HubState ℚ).catalog.trips,
        ¬(t.id = 1 ∧ some t.driverId = exSock.driverId))
    ∧ handleTripStart 100
        ⟨⟨[⟨5, 7, "active", 0⟩], [⟨2, "REG", some 5⟩],
          [⟨1, 2, 6, 3, TripStatus.active, some 50, none, none, none⟩],
          [], [], [], []⟩, exSession⟩ exSock
      = ⟨⟨⟨[⟨5, 7, "active", 0⟩], [⟨2, "REG", some 5⟩],
          [⟨1, 2, 6, 3, TripStatus.active, some 50, none, none, none⟩],
          [], [], [], []⟩, exSession⟩, exSock,
         [selfError "Failed to start trip"]⟩ :=
  ⟨rfl, by decide,
   c1_start_requires_ownership 100
     ⟨⟨[⟨5, 7, "active", 0⟩], [⟨2, "REG", some 5⟩],
       [⟨1, 2, 6, 3, TripStatus.active, some 50, none, none, none⟩],
       [], [], [], []⟩, exSession⟩ exSock 1 rfl (by decide)⟩

/-- Result of a successful `end_trip` on the example state. -/
def c2r1 : HandlerResult ℚ :=
  handleTripEnd 100 exState exSock ⟨some 12, some (42 / 5)⟩

/-- A subsequent `location_update` on the same connection. -/
def c2r2 : HandlerResult ℚ :=
  handleLocationUpdate qdist 200 c2r1.state c2r1.socket
    ⟨some 30, some 78, none, none, none, none⟩

/-- Counterexample to C2 as stated: after a successful `end_trip` (the
session is deleted) a subsequent valid `location_update` on the same
connection does not fail with `No vehicle assigned` — only the trip
binding was cleared, the vehicle binding survives — and it does write a
fix to the store. -/
theorem c2_counterexample :
    selfError "Failed to end trip" ∉ c2r1.emits
    ∧ c2r1.state.session.driverSessions = []
    ∧ c2r1.socket.vehicleId = some 2
    ∧ selfError "No vehicle assigned" ∉ c2r2.emits
    ∧ c2r2.state.catalog.vehicleLocations.length
        = c2r1.state.catalog.vehicleLocations.length + 1 := by
  decide

/-- C2 (amended): a successful `end_trip` deletes the driver's
DriverSession and clears the trip binding on the connection, but the
vehicle binding is retained; a subsequent `location_update` with valid
coordinates therefore does not fail with `No vehicle assigned` — it
appends a durable fix whose trip id is null. -/
theorem c2_end_clears_only_trip_binding {α : Type} [LinearOrderedField α]
    [FloorRing α] (dist : α → α → α → α → α) (now now2 : Nat)
    (st st2 : HubState α) (sock : Socket) (p : EndPayload α)
    (p2 : LocPayload α) (tid d v : Nat) (trip0 : Trip α)
    (ht : sock.tripId = some tid) (hd : sock.driverId = some d)
    (hv : sock.vehicleId = some v)
    (h0 : (st.catalog.trips.filter
        (fun t => decide (t.id = tid ∧ some t.driverId = sock.driverId))).head?
        = some trip0)
    (hlat : falsy p2.latitude = false) (hlon : falsy p2.longitude = false) :
    (handleTripEnd now st sock p).state.session.driverSessions
        = st.session.driverSessions.filter (fun q => decide (q.1 ≠ d))
    ∧ (handleTripEnd now st sock p).socket.tripId = none
    ∧ (handleTripEnd now st sock p).socket.vehicleId = some v
    ∧ selfError "No vehicle assigned"
        ∉ (handleLocationUpdate dist now2 st2
            (handleTripEnd now st sock p).socket p2).emits
    ∧ (handleLocationUpdate dist now2 st2
          (handleTripEnd now st sock p).socket p2).state.catalog.vehicleLocations
        = st2.catalog.vehicleLocations
            ++ [mkFix (handleTripEnd now st sock p).socket now2 v p2]
    ∧ (mkFix (handleTripEnd now st sock p).socket now2 v p2).tripId = none := by
  rw [handleTripEnd_success_eq now st sock p tid trip0 ht h0]
  have hsock2 : ({ sock with tripId := none } : Socket).vehicleId = some v := hv
  refine ⟨by simp [removeSession, hd], rfl, hsock2, ?_, ?_, rfl⟩
  · unfold handleLocationUpdate
    rw [hlat, hlon, hsock2]
    simp only [Bool.or_self, Bool.false_eq_true, if_false]
    simp [selfError, calculateAndEmitETAs]
  · unfold handleLocationUpdate
    rw [hlat, hlon, hsock2]
    simp only [Bool.or_self, Bool.false_eq_true, if_false]
    rw [calcETAs_catalog]

/-- Witness for C2 (amended) on the example state. -/
theorem c2_end_clears_only_trip_binding_witness :
    exSock.tripId = some 1 ∧ exSock.driverId = some 5
    ∧ exSock.vehicleId = some 2
    ∧ (exState.catalog.trips.filter
        (fun t => decide (t.id = 1 ∧ some t.driverId = exSock.driverId))).head?
        = some ⟨1, 2, 5, 3, TripStatus.active, some 50, none, none, none⟩
    ∧ falsy (α := ℚ) (some 30) = false ∧ falsy (α := ℚ) (some 78) = false
    ∧ ((handleTripEnd 100 exState exSock
          (⟨some 12, some (42 / 5)⟩ : EndPayload ℚ)).state.session.driverSessions
        = exState.session.driverSessions.filter (fun q => decide (q.1 ≠ 5))
      ∧ (handleTripEnd 100 exState exSock
          (⟨some 12, some (42 / 5)⟩ : EndPayload ℚ)).socket.tripId = none
      ∧ (handleTripEnd 100 exState exSock
          (⟨some 12, some (42 / 5)⟩ : EndPayload ℚ)).socket.vehicleId = some 2
      ∧ selfError "No vehicle assigned"
          ∉ (handleLocationUpdate qdist 200 exState
              (handleTripEnd 100 exState exSock
                (⟨some 12, some (42 / 5)⟩ : EndPayload ℚ)).socket
              ⟨some 30, some 78, none, none, none, none⟩).emits
      ∧ (handleLocationUpdate qdist 200 exState
            (handleTripEnd 100 exState exSock
              (⟨some 12, some (42 / 5)⟩ : EndPayload ℚ)).socket
            ⟨some 30, some 78, none, none, none, none⟩).state.catalog.vehicleLocations
          = exState.catalog.vehicleLocations
              ++ [mkFix (handleTripEnd 100 exState exSock
                    (⟨some 12, some (42 / 5)⟩ : EndPayload ℚ)).socket 200 2
                    (⟨some 30, some 78, none, none, none, none⟩ : LocPayload ℚ)]
      ∧ (mkFix (handleTripEnd 100 exState exSock
            (⟨some 12, some (42 / 5)⟩ : EndPayload ℚ)).socket 200 2
            (⟨some 30, some 78, none, none, none, none⟩ : LocPayload ℚ)).tripId = none) :=
  ⟨rfl, rfl, rfl, by decide, by decide, by decide,
   c2_end_clears_only_trip_binding qdist 100 200 exState exState exSock
     ⟨some 12, some (42 / 5)⟩ ⟨some 30, some 78, none, none, none, none⟩
     1 5 2 ⟨1, 2, 5, 3, TripStatus.active, some 50, none, none, none⟩
     rfl rfl rfl (by decide) (by decide) (by decide)⟩

/-- C4: a successful `end_trip` on a trip owned by the calling driver sets
the trip's status to `completed` with the actual end time, stores the
supplied passenger count and distance covered (defaulting to 0 when
omitted or falsy), increments the matching driver rows' lifetime trip
counter by exactly 1, and emits a `trip_status_update` with status
`completed` to the trip's route room. -/
theorem c4_trip_end_success {α : Type} [LinearOrderedField α] [FloorRing α]
    (now : Nat) (st : HubState α) (sock : Socket) (p : EndPayload α)
    (tid : Nat) (trip0 : Trip α)
    (ht : sock.tripId = some tid)
    (h0 : (st.catalog.trips.filter
        (fun t => decide (t.id = tid ∧ some t.driverId = sock.driverId))).head?
        = some trip0) :
    (handleTripEnd now st sock p).state.catalog.trips
        = st.catalog.trips.map (fun t =>
            if t.id = tid ∧ some t.driverId = sock.driverId then
              completeTrip now (orZero p.passengerCount)
                (orZero p.distanceCovered) t
            else t)
    ∧ (∀ t ∈ (handleTripEnd now st sock p).state.catalog.trips,
        t.id = tid → some t.driverId = sock.driverId →
          t.status = TripStatus.completed ∧ t.actualEndTime = some now
          ∧ t.passengerCount = some (orZero p.passengerCount)
          ∧ t.distanceCovered = some (orZero p.distanceCovered))
    ∧ (handleTripEnd now st sock p).state.catalog.drivers
        = st.catalog.drivers.map (fun dr =>
            if some dr.id = sock.driverId then
              { dr with totalTrips := dr.totalTrips + 1 }
            else dr)
    ∧ (handleTripEnd now st sock p).emits
        = [⟨Target.toSelf,
            Event.tripEnded tid (some now) (some (orZero p.passengerCount))
              (some (orZero p.distanceCovered))⟩,
           ⟨Target.room (Room.route trip0.routeId),
            Event.tripStatusUpdate tid sock.vehicleId TripStatus.completed
              (some now)⟩] := by
  rw [handleTripEnd_success_eq now st sock p tid trip0 ht h0]
  refine ⟨rfl, ?_, rfl, rfl⟩
  intro t htm hid hdrv
  simp only at htm
  unfold endUpdate at htm
  rcases List.mem_map.mp htm with ⟨t0, _, hmap⟩
  by_cases hc : t0.id = tid ∧ some t0.driverId = sock.driverId
  · rw [if_pos hc] at hmap
    rw [← hmap]
    exact ⟨rfl, rfl, rfl, rfl⟩
  · rw [if_neg hc] at hmap
    rw [← hmap] at hid hdrv
    exact absurd ⟨hid, hdrv⟩ hc

/-- Witness for C4: the spec scenario `end_trip {passengerCount: 12,
distanceCovered: 8.4}` on the example state. -/
theorem c4_trip_end_success_witness :
    exSock.tripId = some 1
    ∧ (exState.catalog.trips.filter
        (fun t => decide (t.id = 1 ∧ some t.driverId = exSock.driverId))).head?
        = some ⟨1, 2, 5, 3, TripStatus.active, some 50, none, none, none⟩
    ∧ (handleTripEnd 100 exState exSock
          (⟨some 12, some (42 / 5)⟩ : EndPayload ℚ)).state.catalog.trips
        = exState.catalog.trips.map (fun t =>
            if t.id = 1 ∧ some t.driverId = exSock.driverId then
              completeTrip 100 (orZero (some 12)) (orZero (some (42 / 5))) t
            else t)
    ∧ (handleTripEnd 100 exState exSock
          (⟨some 12, some (42 / 5)⟩ : EndPayload ℚ)).state.catalog.drivers
        = exState.catalog.drivers.map (fun dr =>
            if some dr.id = exSock.driverId then
              { dr with totalTrips := dr.totalTrips + 1 }
            else dr)
    ∧ (handleTripEnd 100 exState exSock
          (⟨some 12, some (42 / 5)⟩ : EndPayload ℚ)).emits
        = [⟨Target.toSelf,
            Event.tripEnded 1 (some 100) (some (orZero (some 12)))
              (some (orZero (some (42 / 5))))⟩,
           ⟨Target.room (Room.route 3),
            Event.tripStatusUpdate 1 exSock.vehicleId TripStatus.completed
              (some 100)⟩] :=
  ⟨rfl, by decide,
   (c4_trip_end_success 100 exState exSock ⟨some 12, some (42 / 5)⟩ 1
     ⟨1, 2, 5, 3, TripStatus.active, some 50, none, none, none⟩
     rfl (by decide)).1,
   (c4_trip_end_success 100 exState exSock ⟨some 12, some (42 / 5)⟩ 1
     ⟨1, 2, 5, 3, TripStatus.active, some 50, none, none, none⟩
     rfl (by decide)).2.2.1,
   (c4_trip_end_success 100 exState exSock ⟨some 12, some (42 / 5)⟩ 1
     ⟨1, 2, 5, 3, TripStatus.active, some 50, none, none, none⟩
     rfl (by decide)).2.2.2⟩

/-- C5: the ETA batch for a bound trip has at most 5 stops, is ordered
ascending by stop order, contains no stop whose stop order is ≤ the stop
order of any of the trip's stops with a recorded actual arrival, and is
broadcast to the observers room as a single event exactly when at least
one candidate stop exists (otherwise nothing is emitted). -/
theorem c5_eta_window {α : Type} [LinearOrderedField α] [FloorRing α]
    (dist : α → α → α → α → α) (now : Nat) (st : HubState α) (sock : Socket)
    (lat lon : α) (tid : Nat) (ht : sock.tripId = some tid) :
    (etaQueryRows st.catalog tid).length ≤ 5
    ∧ List.Sorted stopLE (etaQueryRows st.catalog tid)
    ∧ (∀ e ∈ etaQueryRows st.catalog tid, ∀ o ∈ arrivedOrders st.catalog tid,
        o < e.stopOrder)
    ∧ (calculateAndEmitETAs dist now st sock lat lon).2
        = (if etaQueryRows st.catalog tid = [] then []
           else [⟨Target.room Room.passengers,
                  Event.etaUpdate sock.vehicleId tid
                    ((etaQueryRows st.catalog tid).map (mkEtaEntry dist lat lon))⟩]) := by
  have hmem : ∀ e ∈ etaQueryRows st.catalog tid,
      maxArrivedOrder st.catalog tid < e.stopOrder := by
    intro e he
    unfold etaQueryRows at he
    have h1 := (List.take_sublist 5 _).subset he
    have h2 := (List.mem_insertionSort stopLE).mp h1
    have h3 := List.mem_filter.mp h2
    simpa using h3.2
  refine ⟨?_, ?_, ?_, ?_⟩
  · unfold etaQueryRows
    rw [List.length_take]
    exact min_le_left _ _
  · unfold etaQueryRows
    exact List.Pairwise.sublist (List.take_sublist 5 _)
      (List.sorted_insertionSort stopLE _)
  · intro e he o ho
    exact lt_of_le_of_lt (le_foldr_max ho) (hmem e he)
  · unfold calculateAndEmitETAs
    rw [ht]
    by_cases hr : etaQueryRows st.catalog tid = []
    · simp [hr]
    · have hp : 0 < (etaQueryRows st.catalog tid).length :=
        List.length_pos.mpr hr
      simp [hr, hp]

/-- Catalog for the C5 witness: trip 1 on route 3 whose stop 11 (order 2)
has a recorded arrival, with further stops of orders 1, 3 and 4. -/
def c5Catalog : Catalog ℚ :=
  ⟨[], [], [⟨1, 2, 5, 3, TripStatus.active, some 50, none, none, none⟩], [],
   [⟨1, 11, some 70, none⟩],
   [⟨3, 11, 2⟩, ⟨3, 12, 3⟩, ⟨3, 13, 1⟩, ⟨3, 14, 4⟩],
   [⟨11, "A", 1, 1⟩, ⟨12, "B", 2, 2⟩, ⟨13, "C", 3, 3⟩, ⟨14, "D", 4, 4⟩]⟩

/-- Witness for C5 on a concrete catalog with one arrived stop. -/
theorem c5_eta_window_witness :
    exSock.tripId = some 1
    ∧ (etaQueryRows c5Catalog 1).length ≤ 5
    ∧ List.Sorted stopLE (etaQueryRows c5Catalog 1)
    ∧ (∀ e ∈ etaQueryRows c5Catalog 1, ∀ o ∈ arrivedOrders c5Catalog 1,
        o < e.stopOrder)
    ∧ (calculateAndEmitETAs qdist 100 ⟨c5Catalog, exSession⟩ exSock 30 78).2
        = (if etaQueryRows c5Catalog 1 = [] then []
           else [⟨Target.room Room.passengers,
                  Event.etaUpdate exSock.vehicleId 1
                    ((etaQueryRows c5Catalog 1).map (mkEtaEntry qdist 30 78))⟩]) :=
  ⟨rfl,
   (c5_eta_window qdist 100 ⟨c5Catalog, exSession⟩ exSock 30 78 1 rfl).1,
   (c5_eta_window qdist 100 ⟨c5Catalog, exSession⟩ exSock 30 78 1 rfl).2.1,
   (c5_eta_window qdist 100 ⟨c5Catalog, exSession⟩ exSock 30 78 1 rfl).2.2.1,
   (c5_eta_window qdist 100 ⟨c5Catalog, exSession⟩ exSock 30 78 1 rfl).2.2.2⟩

/-- JavaScript `Math.atan2(0, 1)` is 0. -/
theorem atan2_zero_one : atan2 0 1 = 0 := by
  unfold atan2
  rw [if_pos one_pos]
  simp [Real.arctan_zero]

/-- The haversine distance between two identical coordinate pairs is 0. -/
theorem calculateDistance_self (lat lon : ℝ) :
    calculateDistance lat lon lat lon = 0 := by
  unfold calculateDistance
  simp only [sub_self, zero_mul, zero_div, Real.sin_zero, mul_zero, add_zero,
    zero_add, sub_zero, Real.sqrt_zero, Real.sqrt_one, atan2_zero_one]

/-- The ETA of a zero distance is 0 minutes. -/
theorem jsRound_zero_distance : jsRound ((0 : ℝ) / 30 * 60) = 0 := by
  have h : ((0 : ℝ) / 30 * 60) = 0 := by norm_num
  rw [h]
  unfold jsRound
  rw [zero_add, Int.floor_eq_zero_iff]
  constructor <;> norm_num

/-- C6: instantiating the ETA estimator with the haversine distance
function (`calculateDistance`, Earth radius 6371 km), every entry of the
emitted batch reports `eta = round(d / 30 × 60)` minutes and the distance
`d` rounded to 2 decimals, where `d` is the haversine distance between
the current fix and that stop's coordinates; the haversine distance of
two identical coordinate pairs is 0 and the ETA for distance 0 is 0
minutes. -/
theorem c6_eta_formula :
    (∀ (now : Nat) (st : HubState ℝ) (sock : Socket) (lat lon : ℝ),
      (calculateAndEmitETAs calculateDistance now st sock lat lon).2
        = match sock.tripId with
          | none => []
          | some tid =>
            if etaQueryRows st.catalog tid = [] then []
            else [⟨Target.room Room.passengers,
                   Event.etaUpdate sock.vehicleId tid
                     ((etaQueryRows st.catalog tid).map (fun s =>
                        ⟨s.id, s.name,
                         jsRound (calculateDistance lat lon s.latitude
                           s.longitude / 30 * 60),
                         round2 (calculateDistance lat lon s.latitude
                           s.longitude)⟩))⟩])
    ∧ (∀ lat lon : ℝ, calculateDistance lat lon lat lon = 0)
    ∧ jsRound ((0 : ℝ) / 30 * 60) = 0 := by
  refine ⟨?_, calculateDistance_self, jsRound_zero_distance⟩
  intro now st sock lat lon
  cases htid : sock.tripId with
  | none =>
    unfold calculateAndEmitETAs
    rw [htid]
  | some tid =>
    unfold calculateAndEmitETAs
    rw [htid]
    by_cases hr : etaQueryRows st.catalog tid = []
    · simp [hr]
    · have hp : 0 < (etaQueryRows st.catalog tid).length :=
        List.length_pos.mpr hr
      simp [hr, hp, mkEtaEntry]

/-- C8: on an accepted `location_update` (truthy coordinates, vehicle
bound), the appended durable fix stores any field supplied as 0 (speed,
heading, accuracy) as null — the defaulting test is falsiness, not
absence — while the cache snapshot written for the same fix keeps the
literal 0, so the durable record and the cache snapshot disagree on that
field. -/
theorem c8_zero_field_divergence {α : Type} [LinearOrderedField α]
    [FloorRing α] (dist : α → α → α → α → α) (now : Nat) (st : HubState α)
    (sock : Socket) (p : LocPayload α) (v : Nat)
    (hlat : falsy p.latitude = false) (hlon : falsy p.longitude = false)
    (hv : sock.vehicleId = some v) :
    (handleLocationUpdate dist now st sock p).state.catalog.vehicleLocations
        = st.catalog.vehicleLocations ++ [mkFix sock now v p]
    ∧ getKey (handleLocationUpdate dist now st sock
        p).state.session.cachedLocations v = some (mkCache sock now v p)
    ∧ (p.speed = some 0 →
        (mkFix sock now v p).speed = none
        ∧ (mkCache sock now v p).speed = some 0
        ∧ (mkFix sock now v p).speed ≠ (mkCache sock now v p).speed)
    ∧ (p.heading = some 0 →
        (mkFix sock now v p).heading = none
        ∧ (mkCache sock now v p).heading = some 0
        ∧ (mkFix sock now v p).heading ≠ (mkCache sock now v p).heading)
    ∧ (p.accuracy = some 0 →
        (mkFix sock now v p).accuracy = none
        ∧ (mkCache sock now v p).accuracy = some 0
        ∧ (mkFix sock now v p).accuracy ≠ (mkCache sock now v p).accuracy) := by
  refine ⟨?_, ?_, ?_, ?_, ?_⟩
  · unfold handleLocationUpdate
    rw [hlat, hlon, hv]
    simp only [Bool.or_self, Bool.false_eq_true, if_false]
    rw [calcETAs_catalog]
  · unfold handleLocationUpdate
    rw [hlat, hlon, hv]
    simp only [Bool.or_self, Bool.false_eq_true, if_false]
    rw [calcETAs_cachedLocations]
    exact getKey_setKey _ _ _
  · intro hs
    refine ⟨?_, ?_, ?_⟩ <;> simp [mkFix, mkCache, orNull, falsy, hs]
  · intro hh
    refine ⟨?_, ?_, ?_⟩ <;> simp [mkFix, mkCache, orNull, falsy, hh]
  · intro ha
    refine ⟨?_, ?_, ?_⟩ <;> simp [mkFix, mkCache, orNull, falsy, ha]

/-- Payload of the C8 witness: valid coordinates, speed, heading and
accuracy all supplied as the literal 0. -/
def c8Payload : LocPayload ℚ := ⟨some 30, some 78, some 0, some 0, some 0, none⟩

/-- Witness for C8 on the example state. -/
theorem c8_zero_field_divergence_witness :
    falsy c8Payload.latitude = false ∧ falsy c8Payload.longitude = false
    ∧ exSock.vehicleId = some 2 ∧ c8Payload.speed = some 0
    ∧ (handleLocationUpdate qdist 5 exState exSock
          c8Payload).state.catalog.vehicleLocations
        = exState.catalog.vehicleLocations ++ [mkFix exSock 5 2 c8Payload]
    ∧ getKey (handleLocationUpdate qdist 5 exState exSock
          c8Payload).state.session.cachedLocations 2
        = some (mkCache exSock 5 2 c8Payload)
    ∧ (mkFix exSock 5 2 c8Payload).speed = none
    ∧ (mkCache exSock 5 2 c8Payload).speed = some 0
    ∧ (mkFix exSock 5 2 c8Payload).speed ≠ (mkCache exSock 5 2 c8Payload).speed :=
  ⟨by decide, by decide, rfl, rfl,
   (c8_zero_field_divergence qdist 5 exState exSock c8Payload 2
     (by decide) (by decide) rfl).1,
   (c8_zero_field_divergence qdist 5 exState exSock c8Payload 2
     (by decide) (by decide) rfl).2.1,
   ((c8_zero_field_divergence qdist 5 exState exSock c8Payload 2
     (by decide) (by decide) rfl).2.2.1 rfl).1,
   ((c8_zero_field_divergence qdist 5 exState exSock c8Payload 2
     (by decide) (by decide) rfl).2.2.1 rfl).2.1,
   ((c8_zero_field_divergence qdist 5 exState exSock c8Payload 2
     (by decide) (by decide) rfl).2.2.1 rfl).2.2⟩

end SafarSathi

